import Mathlib

/-!
Verification of the input-classification and security-gated retrieval/serving
pipeline of the 1FileLLM web interface (src/extras/web_app.py).

The Python source is shallowly embedded: pure string logic becomes Lean
functions on `String`/`List Char`, the filesystem (the fixed output directory)
becomes a finite map `Fs`, external collaborators (retrieval backends,
normalization, token counting, clipboard) become an environment `Env` of
fallible functions, and the request handler becomes a total function that also
returns the new file store and a trace of its observable effects.
-/

set_option autoImplicit false

namespace OneFileLLM

/-! ## String helpers (Python semantics) -/

/-- Substring containment on character lists, i.e. Python's `needle in hay`. -/
def listContainsSub (hay needle : List Char) : Bool :=
  match hay with
  | [] => needle.isEmpty
  | c :: t => needle.isPrefixOf (c :: t) || listContainsSub t needle

/-- Python's `sub in s` for strings. -/
def strContains (s sub : String) : Bool :=
  listContainsSub s.data sub.data

/-- Python's `s.startswith(p)`: the first `len(p)` characters equal `p`. -/
def strStartsWith (s p : String) : Bool :=
  s.data.take p.data.length == p.data

/-! ## Character and number helpers -/

/-- ASCII decimal digit (CPython's `isascii() and isdigit()` on octets). -/
def isAsciiDigitChar (c : Char) : Bool :=
  48 ≤ c.toNat && c.toNat ≤ 57

/-- ASCII letter (CPython's `isascii() and isalpha()`). -/
def isAsciiAlphaChar (c : Char) : Bool :=
  (65 ≤ c.toNat && c.toNat ≤ 90) || (97 ≤ c.toNat && c.toNat ≤ 122)

/-- Hexadecimal digit (CPython ipaddress._HEX_DIGITS). -/
def isHexDigitChar (c : Char) : Bool :=
  isAsciiDigitChar c || (97 ≤ c.toNat && c.toNat ≤ 102) ||
    (65 ≤ c.toNat && c.toNat ≤ 70)

def decDigitVal (c : Char) : Nat := c.toNat - 48

def hexDigitVal (c : Char) : Nat :=
  if isAsciiDigitChar c then c.toNat - 48
  else if 97 ≤ c.toNat then c.toNat - 87
  else c.toNat - 55

/-- Value of a decimal digit string (as Python `int(s)` on valid input). -/
def decVal (l : List Char) : Nat :=
  l.foldl (fun a c => a * 10 + decDigitVal c) 0

/-- Value of a hexadecimal digit string (as Python `int(s, 16)` on valid input). -/
def hexVal (l : List Char) : Nat :=
  l.foldl (fun a c => a * 16 + hexDigitVal c) 0

/-- Python `s.split(sep)` for a one-character separator (never returns []). -/
def splitOnChar (sep : Char) (l : List Char) : List (List Char) :=
  match l with
  | [] => [[]]
  | c :: t =>
    let r := splitOnChar sep t
    if c = sep then [] :: r
    else
      match r with
      | [] => [[c]]
      | h :: t2 => (c :: h) :: t2

/-- Python str.lower restricted to ASCII letters (hostnames/schemes here are
ASCII). -/
def lowerChar (c : Char) : Char :=
  if 65 ≤ c.toNat ∧ c.toNat ≤ 90 then Char.ofNat (c.toNat + 32) else c

def lowerL (l : List Char) : List Char := l.map lowerChar

/-! ## CPython `ipaddress.ip_address` (used by web_app.py line 78) -/

/-- A parsed literal IP address: the 32-bit IPv4 or 128-bit IPv6 value. -/
inductive IPAddr where
  | v4 (n : Nat)
  | v6 (n : Nat)
deriving DecidableEq

/-- CPython ipaddress._parse_octet: nonempty ASCII-decimal, at most three
characters, no leading zero, value at most 255. -/
def parseOctet (p : List Char) : Option Nat :=
  match p with
  | [] => none
  | c :: rest =>
    if ((c :: rest).all isAsciiDigitChar) = false then none
    else if 3 < rest.length + 1 then none
    else if c = '0' ∧ rest ≠ [] then none
    else if 255 < decVal (c :: rest) then none
    else some (decVal (c :: rest))

/-- CPython IPv4Address string parsing: exactly four octets joined by dots. -/
def parseV4 (l : List Char) : Option Nat :=
  match splitOnChar '.' l with
  | [a, b, c, d] => do
    let va ← parseOctet a
    let vb ← parseOctet b
    let vc ← parseOctet c
    let vd ← parseOctet d
    pure (((va * 256 + vb) * 256 + vc) * 256 + vd)
  | _ => none

/-- CPython ipaddress._parse_hextet: 1-4 hexadecimal digits. -/
def parseHextet (p : List Char) : Option Nat :=
  if p = [] then none
  else if 4 < p.length then none
  else if p.all isHexDigitChar = false then none
  else some (hexVal p)

/-- One colon-separated IPv6 group: `some none` for an empty group (candidate
`::`), `some (some v)` for a hextet, `none` when the group is invalid. -/
def v6Tok (p : List Char) : Option (Option Nat) :=
  if p = [] then some none
  else (parseHextet p).map some

/-- One step of CPython's IPv6 value accumulation. -/
def v6Step (a : Nat) (t : Option Nat) : Nat := a * 65536 + t.getD 0

/-- CPython ipaddress._ip_int_from_string for IPv6 (without scope): split on
colons, expand a trailing embedded IPv4 address, then locate the at-most-one
`::` and fold the hextets around it. -/
def parseV6core (addr : List Char) : Option Nat :=
  let parts := splitOnChar ':' addr
  if parts.length < 3 then none
  else
    let toksO : Option (List (Option Nat)) :=
      match parts.getLast? with
      | none => none
      | some last =>
        if listContainsSub last ['.'] then
          match parseV4 last with
          | none => none
          | some n =>
            (parts.dropLast.mapM v6Tok).map
              (fun ts => ts ++ [some (n / 65536), some (n % 65536)])
        else parts.mapM v6Tok
    match toksO with
    | none => none
    | some toks =>
      if 9 < toks.length then none
      else
        let L := toks.length
        let interior := (toks.drop 1).dropLast
        let skips := interior.countP (fun t => t.isNone)
        let hd := toks.head?.getD (some 0)
        let lst := toks.getLast?.getD (some 0)
        if 1 < skips then none
        else if skips = 1 then
          let i := interior.findIdx (fun t => t.isNone) + 1
          if hd.isNone ∧ i ≠ 1 then none
          else if lst.isNone ∧ L - i - 1 ≠ 1 then none
          else
            let partsHi := if hd.isNone then i - 1 else i
            let partsLo := if lst.isNone then L - i - 2 else L - i - 1
            if 7 < partsHi + partsLo then none
            else
              let skipped := 8 - (partsHi + partsLo)
              let hiv := (toks.take partsHi).foldl v6Step 0
              some ((toks.drop (L - partsLo)).foldl v6Step (hiv * 2 ^ (16 * skipped)))
        else
          if L ≠ 8 then none
          else if hd.isNone then none
          else if lst.isNone then none
          else some (toks.foldl v6Step 0)

/-- CPython IPv6Address string parsing including the optional `%scope` suffix
(split at the first percent sign; the scope must be nonempty and contain no
further percent sign). -/
def parseV6 (l : List Char) : Option Nat :=
  let addr := l.takeWhile (fun c => c != '%')
  let rest := l.dropWhile (fun c => c != '%')
  match rest with
  | [] => parseV6core addr
  | _ :: scope =>
    if scope = [] then none
    else if listContainsSub scope ['%'] then none
    else parseV6core addr

/-- CPython ipaddress.ip_address on a string: IPv4 first, then IPv6; `none`
models the ValueError branch of web_app.py lines 81-82. -/
def ip_address (s : String) : Option IPAddr :=
  match parseV4 s.data with
  | some n => some (.v4 n)
  | none =>
    match parseV6 s.data with
    | some n => some (.v6 n)
    | none => none

/-! ## IP address classification (CPython ipaddress predicates) -/

def mkIp4 (a b c d : Nat) : Nat := ((a * 256 + b) * 256 + c) * 256 + d

/-- Membership of a 32-bit address in a CIDR network. -/
def inNet4 (addr net plen : Nat) : Bool :=
  addr / 2 ^ (32 - plen) == net / 2 ^ (32 - plen)

/-- Membership of a 128-bit address in a CIDR network. -/
def inNet6 (addr net plen : Nat) : Bool :=
  addr / 2 ^ (128 - plen) == net / 2 ^ (128 - plen)

/-- IPv4Address.is_private: CPython's _IPv4Constants._private_networks. -/
def isPrivate4 (n : Nat) : Bool :=
  inNet4 n (mkIp4 0 0 0 0) 8 || inNet4 n (mkIp4 10 0 0 0) 8 ||
  inNet4 n (mkIp4 127 0 0 0) 8 || inNet4 n (mkIp4 169 254 0 0) 16 ||
  inNet4 n (mkIp4 172 16 0 0) 12 || inNet4 n (mkIp4 192 0 0 0) 29 ||
  inNet4 n (mkIp4 192 0 0 170) 31 || inNet4 n (mkIp4 192 0 2 0) 24 ||
  inNet4 n (mkIp4 192 168 0 0) 16 || inNet4 n (mkIp4 198 18 0 0) 15 ||
  inNet4 n (mkIp4 198 51 100 0) 24 || inNet4 n (mkIp4 203 0 113 0) 24 ||
  inNet4 n (mkIp4 240 0 0 0) 4 || inNet4 n (mkIp4 255 255 255 255) 32

def isLoopback4 (n : Nat) : Bool := inNet4 n (mkIp4 127 0 0 0) 8

def isLinkLocal4 (n : Nat) : Bool := inNet4 n (mkIp4 169 254 0 0) 16

def isReserved4 (n : Nat) : Bool := inNet4 n (mkIp4 240 0 0 0) 4

/-- IPv6Address.is_private: CPython's _IPv6Constants._private_networks. -/
def isPrivate6 (n : Nat) : Bool :=
  n == 1 || n == 0 ||
  inNet6 n 0xffff00000000 96 ||
  inNet6 n 0x01000000000000000000000000000000 64 ||
  inNet6 n 0x20010000000000000000000000000000 23 ||
  inNet6 n 0x20010002000000000000000000000000 48 ||
  inNet6 n 0x20010db8000000000000000000000000 32 ||
  inNet6 n 0x20010010000000000000000000000000 28 ||
  inNet6 n 0xfc000000000000000000000000000000 7 ||
  inNet6 n 0xfe800000000000000000000000000000 10

def isLoopback6 (n : Nat) : Bool := n == 1

def isLinkLocal6 (n : Nat) : Bool :=
  inNet6 n 0xfe800000000000000000000000000000 10

/-- IPv6Address.is_reserved: CPython's _IPv6Constants._reserved_networks. -/
def isReserved6 (n : Nat) : Bool :=
  inNet6 n 0 8 || inNet6 n 0x01000000000000000000000000000000 8 ||
  inNet6 n 0x02000000000000000000000000000000 7 ||
  inNet6 n 0x04000000000000000000000000000000 6 ||
  inNet6 n 0x08000000000000000000000000000000 5 ||
  inNet6 n 0x10000000000000000000000000000000 4 ||
  inNet6 n 0x40000000000000000000000000000000 3 ||
  inNet6 n 0x60000000000000000000000000000000 3 ||
  inNet6 n 0x80000000000000000000000000000000 3 ||
  inNet6 n 0xa0000000000000000000000000000000 3 ||
  inNet6 n 0xc0000000000000000000000000000000 3 ||
  inNet6 n 0xe0000000000000000000000000000000 4 ||
  inNet6 n 0xf0000000000000000000000000000000 5 ||
  inNet6 n 0xf8000000000000000000000000000000 6 ||
  inNet6 n 0xfe000000000000000000000000000000 9

/-- The disjunction tested at web_app.py line 79:
`addr.is_private or addr.is_loopback or addr.is_link_local or addr.is_reserved`. -/
def addrBad : IPAddr → Bool
  | .v4 n => isPrivate4 n || isLoopback4 n || isLinkLocal4 n || isReserved4 n
  | .v6 n => isPrivate6 n || isLoopback6 n || isLinkLocal6 n || isReserved6 n

/-! ## CPython `urllib.parse.urlparse` (hostname and scheme extraction) -/

/-- CPython urlsplit removes every ASCII tab, carriage return and newline
from the URL before parsing. -/
def cleanUrlChars (l : List Char) : List Char :=
  l.filter (fun c => c != '\t' && c != '\r' && c != '\n')

/-- Characters allowed in a URL scheme after the leading letter. -/
def isSchemeChar (c : Char) : Bool :=
  isAsciiAlphaChar c || isAsciiDigitChar c ||
    c == '+' || c == '-' || c == '.'

/-- CPython urlsplit scheme detection: a leading ASCII letter followed by
scheme characters up to the first colon; returns the lowercased scheme (when
present) and the remainder. -/
def splitScheme (u : List Char) : Option (List Char) × List Char :=
  match u with
  | [] => (none, [])
  | c :: t =>
    if isAsciiAlphaChar c = false then (none, c :: t)
    else
      match (c :: t).findIdx? (fun x => x == ':') with
      | none => (none, c :: t)
      | some i =>
        let pre := (c :: t).take i
        if pre.all isSchemeChar then (some (lowerL pre), (c :: t).drop (i + 1))
        else (none, c :: t)

/-- `netloc.partition('[')[2].partition(']')[0]`: the candidate bracketed
host. -/
def bracketedOf (l : List Char) : List Char :=
  ((l.dropWhile (fun c => c != '[')).drop 1).takeWhile (fun c => c != ']')

/-- CPython urllib.parse._check_bracketed_host: `some msg` models the
ValueError it raises for an invalid bracketed host. -/
def checkBracketedHost (h : List Char) : Option String :=
  match h with
  | 'v' :: rest =>
    let hex := rest.takeWhile isHexDigitChar
    let tl := rest.dropWhile isHexDigitChar
    match tl with
    | '.' :: rest2 =>
      if hex = [] ∨ rest2 = [] then some "IPvFuture address is invalid" else none
    | _ => some "IPvFuture address is invalid"
  | _ =>
    match ip_address ⟨h⟩ with
    | some (.v6 _) => none
    | some (.v4 _) => some "An IPv4 address cannot be in brackets"
    | none =>
      some ("'" ++ String.mk h ++ "' does not appear to be an IPv4 or IPv6 address")

/-- The scheme and (optional) netloc produced by urlsplit. -/
structure UrlParts where
  scheme : String
  netloc : Option (List Char)

/-- The slice of CPython urlsplit that web_app.py exercises: strip
tab/newline bytes, split off the scheme, and when the remainder starts with
"//" take the netloc up to the first of / ? #, raising (modelled as
`Except.error`, caught at the handler boundary) on a bracket mismatch or an
invalid bracketed host. -/
def urlsplitM (url : String) : Except String UrlParts :=
  let u := cleanUrlChars url.data
  let (sch, rest) := splitScheme u
  let scheme : String := ⟨(sch.getD [])⟩
  if rest.take 2 = ['/', '/'] then
    let netloc := (rest.drop 2).takeWhile (fun c => c != '/' && c != '?' && c != '#')
    let hasOpen := listContainsSub netloc ['[']
    let hasClose := listContainsSub netloc [']']
    if hasOpen ≠ hasClose then .error "Invalid IPv6 URL"
    else if hasOpen then
      match checkBracketedHost (bracketedOf netloc) with
      | some e => .error e
      | none => .ok ⟨scheme, some netloc⟩
    else .ok ⟨scheme, some netloc⟩
  else .ok ⟨scheme, none⟩

/-- `urlparse(s).scheme` — the empty string when no scheme is present; only
consulted by the handler after urlsplit succeeded. -/
def urlScheme (s : String) : String :=
  match urlsplitM s with
  | .ok p => p.scheme
  | .error _ => ""

/-- `some msg` exactly when `urlparse(s)` raises a ValueError (web_app.py
line 100 lets this escape into the generic handler except-block). -/
def urlparseError (s : String) : Option String :=
  match urlsplitM s with
  | .ok _ => none
  | .error e => some e

/-- SplitResult.hostname on a netloc: drop the userinfo after the last
at-sign, take the bracketed host or the part before the first colon,
lowercase it, and yield nothing when it is empty. -/
def hostnameOfNetloc (netloc : List Char) : Option String :=
  let hostinfo := (netloc.reverse.takeWhile (fun c => c != '@')).reverse
  let host :=
    if listContainsSub hostinfo ['['] then bracketedOf hostinfo
    else hostinfo.takeWhile (fun c => c != ':')
  let h := lowerL host
  if h = [] then none else some ⟨h⟩

/-- `urlparse(s).hostname`, with `none` both for a missing hostname and for a
parse failure (inside `_is_safe_url` both lead to not-safe). -/
def urlHostname (s : String) : Option String :=
  match urlsplitM s with
  | .error _ => none
  | .ok p =>
    match p.netloc with
    | none => none
    | some n => hostnameOfNetloc n

/-! ## Address Safety Checker (web_app.py, `_is_safe_url`, lines 67-85) -/

/-- Shallow embedding of `_is_safe_url`: fail closed when parsing fails or no
hostname is present, reject the two denylisted hostnames, reject literal IP
hostnames that are private, loopback, link-local or reserved, and accept
everything else.  It is a total Lean function, matching the Python
try/except that never lets an exception escape. -/
def is_safe_url (s : String) : Bool :=
  match urlHostname s with
  | none => false
  | some hostname =>
    if hostname = "localhost" ∨ hostname = "metadata.google.internal" then false
    else
      match ip_address hostname with
      | some a => if addrBad a then false else true
      | none => true

/-! ## Download Gatekeeper (web_app.py, `download`, lines 155-170) -/

/-- Python `os.path.basename` with POSIX separators: everything after the
last slash (web_app.py line 162). -/
def osBasename (s : String) : String :=
  ⟨(s.data.reverse.takeWhile (fun c => c ≠ '/')).reverse⟩

/-- The allow list of downloadable filenames (web_app.py line 23). -/
def ALLOWED_DOWNLOAD_FILES : List String :=
  ["uncompressed_output.txt", "compressed_output.txt"]

/-- The contents of the fixed output directory `OUTPUT_DIR`, keyed by bare
filename.  `none` means the file does not exist. -/
abbrev Fs : Type := String → Option String

/-- Result of the `/download` route: HTTP 404, HTTP 403, or the served bytes. -/
inductive DownloadResult where
  | notFound
  | forbidden
  | file (content : String)
deriving DecidableEq

/-- Shallow embedding of the `download` route (web_app.py lines 155-170):
missing or falsy (empty) filename aborts 404; then the basename is taken and
checked against the allow list (403 on failure) before any filesystem access;
an allow-listed basename is resolved against the output directory only,
aborting 404 if absent and serving the bytes otherwise. -/
def download (fs : Fs) (filename : Option String) : DownloadResult :=
  match filename with
  | none => .notFound
  | some f =>
    if f = "" then .notFound
    else
      let basename := osBasename f
      if ALLOWED_DOWNLOAD_FILES.contains basename then
        match fs basename with
        | none => .notFound
        | some c => .file c
      else .forbidden

/-- The empty output directory. -/
def emptyFs : Fs := fun _ => none

/-! ## Input classification (web_app.py, `index`, lines 102-127) -/

/-- Python str.strip's whitespace (ASCII forms). -/
def isSpaceChar (c : Char) : Bool :=
  c == ' ' || c == '\t' || c == '\n' || c == '\r' || c.toNat == 11 || c.toNat == 12

/-- Python `s.strip()` (line 91). -/
def pyStrip (s : String) : String :=
  ⟨((s.data.dropWhile isSpaceChar).reverse.dropWhile isSpaceChar).reverse⟩

/-- Python `s.isdigit()` restricted to ASCII digits: nonempty, all digits. -/
def pyIsdigit (s : String) : Bool :=
  !s.data.isEmpty && s.data.all isAsciiDigitChar

/-- The classification outcome of the if/elif chain at web_app.py lines
102-127; variant names follow the spec's ClassifiedTarget. -/
inductive ClassifiedTarget where
  | repositoryRef
  | pullRequestRef
  | issueRef
  | videoRef
  | documentRef
  | genericWebRef
  | bibliographicRef
  | rejected
deriving DecidableEq

/-- The pure branch structure of `index` (lines 102-127): repository-host
marker first (with the pull check before the issue check), then HTTP/HTTPS
URLs (video platforms, then academic documents, then generic crawl), then
bibliographic identifiers, otherwise rejected. -/
def classify (s : String) : ClassifiedTarget :=
  if strContains s "github.com" then
    if strContains s "/pull/" then .pullRequestRef
    else if strContains s "/issues/" then .issueRef
    else .repositoryRef
  else if urlScheme s == "http" || urlScheme s == "https" then
    if strContains s "youtube.com" || strContains s "youtu.be" then .videoRef
    else if strContains s "arxiv.org" then .documentRef
    else .genericWebRef
  else if (strStartsWith s "10." && strContains s "/") || pyIsdigit s then
    .bibliographicRef
  else .rejected

/-! ## Request handler (web_app.py, `index`, lines 88-152) -/

/-- One successful crawl (crawl_and_extract_text's dict). -/
structure CrawlResult where
  content : String
  processed_urls : List String

/-- The external collaborators the handler invokes.  Each may fail; a failure
models the collaborator raising an exception whose str() is the carried
message.  File writes may fail the same way (IO errors). -/
structure Env where
  process_github_repo : String → Except String String
  process_github_pull_request : String → Except String String
  process_github_issue : String → Except String String
  fetch_youtube_transcript : String → Except String String
  process_arxiv_pdf : String → Except String String
  crawl_and_extract_text : String → Except String CrawlResult
  process_doi_or_pmid : String → Except String String
  preprocess : String → Except String String
  get_token_count : String → Except String Nat
  pyperclip_copy : String → Except String Unit
  write_ok : String → String → Except String Unit

/-- Observable effects of one request, in order: safety-check calls, backend
invocations, artifact file accesses. -/
inductive Event where
  | safetyCheck (url : String)
  | backendCall (name : String) (arg : String)
  | fsWrite (file : String)
  | fsRead (file : String)
deriving DecidableEq

/-- A rendered page: render_template_string's output slot and the two
optional token counts. -/
structure Response where
  output : String
  uncompressed_token_count : Option Nat
  compressed_token_count : Option Nat
deriving DecidableEq

/-- Line 104/113. -/
def securityResp : Response :=
  ⟨"Error: URL rejected by security policy.", none, none⟩

/-- Line 127. -/
def localPathResp : Response :=
  ⟨"Error: Local path processing is not allowed via the web interface.", none, none⟩

/-- The except-branch at lines 149-150: "Error: " followed by str(e). -/
def errorResp (e : String) : Response :=
  ⟨"Error: " ++ e, none, none⟩

def output_file : String := "uncompressed_output.txt"

def processed_file : String := "compressed_output.txt"

def urls_list_file : String := "processed_urls.txt"

def updateFs (fs : Fs) (name content : String) : Fs :=
  fun n => if n = name then some content else fs n

/-- Reading a file back (safe_file_read, and the read inside
preprocess_text): fails when the file is absent. -/
def readFile (fs : Fs) (name : String) : Except String String :=
  match fs name with
  | some c => .ok c
  | none => .error ("No such file or directory: " ++ name)

/-- Python's "\n".join. -/
def joinLines : List String → String
  | [] => ""
  | [s] => s
  | s :: rest => s ++ "\n" ++ joinLines rest

/-- The outcome of one POST request: the rendered page, the resulting output
directory contents, and the effect trace. -/
structure HandlerResult where
  response : Response
  fs : Fs
  trace : List Event

/-- The common artifact tail of `index` (lines 129-148): write the
uncompressed artifact, derive the compressed one via preprocess_text (a read
of the source plus a transformed write), read both back, count tokens
(compressed first), copy to the clipboard, and render the success page; any
failure is the raised exception caught at line 149 and rendered as an error
page, with all files written so far kept on disk. -/
def finishUp (env : Env) (fs : Fs) (tr : List Event) (final : String) :
    HandlerResult :=
  match env.write_ok output_file final with
  | .error e => ⟨errorResp e, fs, tr ++ [.fsWrite output_file]⟩
  | .ok _ =>
    let fs1 := updateFs fs output_file final
    let tr1 := tr ++ [Event.fsWrite output_file, Event.fsRead output_file]
    match readFile fs1 output_file with
    | .error e => ⟨errorResp e, fs1, tr1⟩
    | .ok src =>
      match env.preprocess src with
      | .error e => ⟨errorResp e, fs1, tr1⟩
      | .ok comp =>
        match env.write_ok processed_file comp with
        | .error e => ⟨errorResp e, fs1, tr1 ++ [.fsWrite processed_file]⟩
        | .ok _ =>
          let fs2 := updateFs fs1 processed_file comp
          let tr2 := tr1 ++ [Event.fsWrite processed_file, Event.fsRead processed_file]
          match readFile fs2 processed_file with
          | .error e => ⟨errorResp e, fs2, tr2⟩
          | .ok compressed_text =>
            match env.get_token_count compressed_text with
            | .error e => ⟨errorResp e, fs2, tr2⟩
            | .ok cc =>
              let tr3 := tr2 ++ [Event.fsRead output_file]
              match readFile fs2 output_file with
              | .error e => ⟨errorResp e, fs2, tr3⟩
              | .ok uncompressed_text =>
                match env.get_token_count uncompressed_text with
                | .error e => ⟨errorResp e, fs2, tr3⟩
                | .ok uc =>
                  match env.pyperclip_copy uncompressed_text with
                  | .error e => ⟨errorResp e, fs2, tr3⟩
                  | .ok _ => ⟨⟨final, some uc, some cc⟩, fs2, tr3⟩

/-- The POST branch of `index` (lines 90-150): strip the input, urlparse it
(line 100; a ValueError here is caught by the except at line 149 and rendered
as an error page before any classification), then run the classification
chain.  Network-bound branches are gated by the safety check (the source
inlines the check at the entry of the github and http branches; dispatching
on `classify` reproduces the same responses, file effects and event order),
the crawl branch also writes the sidecar URL list, and the bibliographic
branch dispatches with no safety check. -/
def index_post (env : Env) (fs : Fs) (raw : String) : HandlerResult :=
  let input := pyStrip raw
  match urlparseError input with
  | some m => ⟨errorResp m, fs, []⟩
  | none =>
    match classify input with
    | .pullRequestRef =>
      if is_safe_url input then
        let tr := [Event.safetyCheck input,
                   Event.backendCall "process_github_pull_request" input]
        match env.process_github_pull_request input with
        | .error e => ⟨errorResp e, fs, tr⟩
        | .ok final => finishUp env fs tr final
      else ⟨securityResp, fs, [Event.safetyCheck input]⟩
    | .issueRef =>
      if is_safe_url input then
        let tr := [Event.safetyCheck input,
                   Event.backendCall "process_github_issue" input]
        match env.process_github_issue input with
        | .error e => ⟨errorResp e, fs, tr⟩
        | .ok final => finishUp env fs tr final
      else ⟨securityResp, fs, [Event.safetyCheck input]⟩
    | .repositoryRef =>
      if is_safe_url input then
        let tr := [Event.safetyCheck input,
                   Event.backendCall "process_github_repo" input]
        match env.process_github_repo input with
        | .error e => ⟨errorResp e, fs, tr⟩
        | .ok final => finishUp env fs tr final
      else ⟨securityResp, fs, [Event.safetyCheck input]⟩
    | .videoRef =>
      if is_safe_url input then
        let tr := [Event.safetyCheck input,
                   Event.backendCall "fetch_youtube_transcript" input]
        match env.fetch_youtube_transcript input with
        | .error e => ⟨errorResp e, fs, tr⟩
        | .ok final => finishUp env fs tr final
      else ⟨securityResp, fs, [Event.safetyCheck input]⟩
    | .documentRef =>
      if is_safe_url input then
        let tr := [Event.safetyCheck input,
                   Event.backendCall "process_arxiv_pdf" input]
        match env.process_arxiv_pdf input with
        | .error e => ⟨errorResp e, fs, tr⟩
        | .ok final => finishUp env fs tr final
      else ⟨securityResp, fs, [Event.safetyCheck input]⟩
    | .genericWebRef =>
      if is_safe_url input then
        let tr := [Event.safetyCheck input,
                   Event.backendCall "crawl_and_extract_text" input]
        match env.crawl_and_extract_text input with
        | .error e => ⟨errorResp e, fs, tr⟩
        | .ok cres =>
          match env.write_ok urls_list_file (joinLines cres.processed_urls) with
          | .error e => ⟨errorResp e, fs, tr ++ [.fsWrite urls_list_file]⟩
          | .ok _ =>
            finishUp env (updateFs fs urls_list_file (joinLines cres.processed_urls))
              (tr ++ [Event.fsWrite urls_list_file]) cres.content
      else ⟨securityResp, fs, [Event.safetyCheck input]⟩
    | .bibliographicRef =>
      let tr := [Event.backendCall "process_doi_or_pmid" input]
      match env.process_doi_or_pmid input with
      | .error e => ⟨errorResp e, fs, tr⟩
      | .ok final => finishUp env fs tr final
    | .rejected => ⟨localPathResp, fs, []⟩

/-- A collaborator environment in which every call succeeds; used to
instantiate the universally quantified theorems at concrete inputs. -/
def stubEnv : Env where
  process_github_repo := fun _ => .ok "repo output"
  process_github_pull_request := fun _ => .ok "pr output"
  process_github_issue := fun _ => .ok "issue output"
  fetch_youtube_transcript := fun _ => .ok "transcript"
  process_arxiv_pdf := fun _ => .ok "pdf text"
  crawl_and_extract_text := fun _ => .ok ⟨"crawl text", []⟩
  process_doi_or_pmid := fun _ => .ok "doi text"
  preprocess := fun s => .ok s
  get_token_count := fun _ => .ok 0
  pyperclip_copy := fun _ => .ok ()
  write_ok := fun _ _ => .ok ()

/-- An output directory holding only the uncompressed artifact. -/
def demoFs : Fs :=
  fun n => if n = "uncompressed_output.txt" then some "DATA" else none

/-- C1: for every requested (present, nonempty) download filename, the
gatekeeper strips directory components and returns Forbidden unless the
stripped name is allow-listed (the Forbidden outcome holds for every file
store, i.e. before any filesystem access); an allow-listed stripped name is
resolved only against the fixed output directory, giving NotFound when absent
and the file's bytes when present; and any served bytes come from an
allow-listed name inside the output directory, so no outside file is served.
(The missing/empty-filename case is the separate NotFound check of C10.) -/
theorem claim_C1 (fs : Fs) (name : String) (hne : name ≠ "") :
    (ALLOWED_DOWNLOAD_FILES.contains (osBasename name) = false →
      download fs (some name) = .forbidden) ∧
    (ALLOWED_DOWNLOAD_FILES.contains (osBasename name) = true →
      (fs (osBasename name) = none → download fs (some name) = .notFound) ∧
      (∀ c, fs (osBasename name) = some c → download fs (some name) = .file c)) ∧
    (∀ c, download fs (some name) = .file c →
      ∃ b, ALLOWED_DOWNLOAD_FILES.contains b = true ∧ fs b = some c) := by
  constructor
  · intro h
    have h2 : osBasename name ∉ ALLOWED_DOWNLOAD_FILES := by simpa using h
    simp [download, hne, h2]
  constructor
  · intro h
    have h2 : osBasename name ∈ ALLOWED_DOWNLOAD_FILES := by simpa using h
    exact ⟨fun hf => by simp [download, hne, h2, hf],
           fun c hf => by simp [download, hne, h2, hf]⟩
  · intro c h
    by_cases hb : osBasename name ∈ ALLOWED_DOWNLOAD_FILES
    · refine ⟨osBasename name, by simpa using hb, ?_⟩
      rcases hf : fs (osBasename name) with _ | c2
      · simp [download, hne, hb, hf] at h
      · simp [download, hne, hb, hf] at h
        rw [h]
    · simp [download, hne, hb] at h

/-- Witness for C1 at a concrete non-allow-listed name: requesting
"secret.txt" is Forbidden even though the store is empty. -/
theorem claim_C1_witness :
    download emptyFs (some "secret.txt") = .forbidden :=
  (claim_C1 emptyFs "secret.txt" (by decide)).1 (by decide)

/-- C2 is false as stated: a requested name that contains a path separator is
not always Forbidden.  "evil/uncompressed_output.txt" contains "/" but its
basename is allow-listed, so the code serves the output-directory artifact
(here the bytes "DATA") instead of returning Forbidden. -/
theorem claim_C2_counterexample :
    strContains "evil/uncompressed_output.txt" "/" = true ∧
    download demoFs (some "evil/uncompressed_output.txt") = .file "DATA" ∧
    download demoFs (some "evil/uncompressed_output.txt") ≠ .forbidden := by
  refine ⟨by decide, by decide, by decide⟩

/-- C2 (amended): a requested name containing a path separator is Forbidden
before any filesystem access (for every file store) unless its basename is one
of the two allow-listed filenames; in that case the request is answered from
the output directory only, exactly as in C1. -/
theorem claim_C2_amended (fs : Fs) (name : String)
    (hsep : strContains name "/" = true)
    (hb : ALLOWED_DOWNLOAD_FILES.contains (osBasename name) = false) :
    download fs (some name) = .forbidden := by
  have hne : name ≠ "" := fun h => by
    subst h; exact absurd hsep (by decide)
  have h2 : osBasename name ∉ ALLOWED_DOWNLOAD_FILES := by simpa using hb
  simp [download, hne, h2]

/-- Witness for the amended C2: the traversal attempt "../../etc/passwd" is
Forbidden. -/
theorem claim_C2_witness :
    download emptyFs (some "../../etc/passwd") = .forbidden :=
  claim_C2_amended emptyFs "../../etc/passwd" (by decide) (by decide)

/-- C10: a missing or empty filename parameter is answered NotFound, and this
happens before the allow-list check, so an absent filename is never answered
Forbidden (for every file store). -/
theorem claim_C10 (fs : Fs) :
    download fs none = .notFound ∧ download fs (some "") = .notFound ∧
    download fs none ≠ .forbidden ∧ download fs (some "") ≠ .forbidden := by
  refine ⟨rfl, by simp [download], by intro h; simp [download] at h,
    by intro h; simp [download] at h⟩

/-- C3: the Address Safety Checker returns false (and, being a total Lean
function, never raises — the Python try/except guarantees the same) for every
URL whose parsing fails or yields no hostname (both collapse to
`urlHostname = none` in this total embedding), for every URL whose parsed
hostname is "localhost" or the fixed metadata hostname regardless of scheme,
and for every URL whose hostname is a literal IPv4 address lying in
127.0.0.0/8, 10.0.0.0/8, 169.254.0.0/16 or 192.168.0.0/16. -/
theorem claim_C3 (url : String) :
    (urlHostname url = none → is_safe_url url = false) ∧
    (∀ h, urlHostname url = some h →
      ((h = "localhost" ∨ h = "metadata.google.internal") →
        is_safe_url url = false) ∧
      (∀ n, ip_address h = some (.v4 n) →
        (inNet4 n (mkIp4 127 0 0 0) 8 = true ∨ inNet4 n (mkIp4 10 0 0 0) 8 = true ∨
         inNet4 n (mkIp4 169 254 0 0) 16 = true ∨
         inNet4 n (mkIp4 192 168 0 0) 16 = true) →
        is_safe_url url = false)) := by
  constructor
  · intro h0
    simp [is_safe_url, h0]
  · intro h hh
    constructor
    · intro hd
      simp only [is_safe_url, hh]
      rw [if_pos hd]
    · intro n hip hr
      by_cases hd : h = "localhost" ∨ h = "metadata.google.internal"
      · simp only [is_safe_url, hh]
        rw [if_pos hd]
      · have hbad : addrBad (.v4 n) = true := by
          rcases hr with h1 | h1 | h1 | h1 <;>
            simp [addrBad, isPrivate4, isLoopback4, isLinkLocal4, isReserved4, h1]
        simp only [is_safe_url, hh]
        rw [if_neg hd, hip]
        simp [hbad]

/-- Witness for C3 at "http://192.168.0.10/admin": the hostname is a literal
IPv4 address in 192.168.0.0/16 and the checker rejects. -/
theorem claim_C3_witness : is_safe_url "http://192.168.0.10/admin" = false :=
  ((claim_C3 "http://192.168.0.10/admin").2 "192.168.0.10" (by decide)).2
    (mkIp4 192 168 0 10) (by decide) (Or.inr (Or.inr (Or.inr (by decide))))

/-- C4: for every URL whose parsed hostname is a domain name — not a literal
IP address, i.e. ipaddress.ip_address raises ValueError on it — and is not
one of the two denylisted hostnames, the checker returns true: no DNS-based
check is performed (the documented gap). -/
theorem claim_C4 (url h : String) (hh : urlHostname url = some h)
    (hd1 : h ≠ "localhost") (hd2 : h ≠ "metadata.google.internal")
    (hip : ip_address h = none) : is_safe_url url = true := by
  have hd : ¬(h = "localhost" ∨ h = "metadata.google.internal") := by
    rintro (h1 | h1)
    · exact hd1 h1
    · exact hd2 h1
  simp only [is_safe_url, hh]
  rw [if_neg hd, hip]

/-- Witness for C4: "internal-service.example" is a (potentially privately
resolving) domain name, and the checker accepts it. -/
theorem claim_C4_witness : is_safe_url "http://internal-service.example/x" = true :=
  claim_C4 "http://internal-service.example/x" "internal-service.example"
    (by decide) (by decide) (by decide) (by decide)

/-- C6: for every input containing "github.com": if it contains "/pull/" it
is classified PullRequestRef — even when it also contains "/issues/", since
the pull check comes first; otherwise containing "/issues/" gives IssueRef;
otherwise RepositoryRef. -/
theorem claim_C6 (s : String) (hg : strContains s "github.com" = true) :
    (strContains s "/pull/" = true → classify s = .pullRequestRef) ∧
    (strContains s "/pull/" = false → strContains s "/issues/" = true →
      classify s = .issueRef) ∧
    (strContains s "/pull/" = false → strContains s "/issues/" = false →
      classify s = .repositoryRef) := by
  refine ⟨fun hp => ?_, fun hp hi => ?_, fun hp hi => ?_⟩
  · simp [classify, hg, hp]
  · simp [classify, hg, hp, hi]
  · simp [classify, hg, hp, hi]

/-- Witness for C6 on an input containing both path segments: the pull check
wins. -/
theorem claim_C6_witness :
    classify "https://github.com/o/r/pull/7/issues/9" = .pullRequestRef :=
  (claim_C6 "https://github.com/o/r/pull/7/issues/9" (by decide)).1 (by decide)

/-- The artifact tail only ever appends filesystem events to the trace it is
given; in particular it performs no safety check and no further backend
call. -/
theorem finishUp_trace_shape (env : Env) (fs : Fs) (tr : List Event)
    (final : String) :
    ∃ ext : List Event, (finishUp env fs tr final).trace = tr ++ ext ∧
      ∀ e ∈ ext, ∀ u, e ≠ Event.safetyCheck u := by
  rcases h1 : env.write_ok output_file final with e1 | u1
  · exact ⟨[Event.fsWrite output_file], by simp [finishUp, h1], by simp⟩
  · rcases h2 : env.preprocess final with e2 | comp
    · exact ⟨[Event.fsWrite output_file, Event.fsRead output_file],
        by simp [finishUp, h1, h2, readFile, updateFs], by simp⟩
    · rcases h3 : env.write_ok processed_file comp with e3 | u3
      · exact ⟨[Event.fsWrite output_file, Event.fsRead output_file,
          Event.fsWrite processed_file],
          by simp [finishUp, h1, h2, h3, readFile, updateFs], by simp⟩
      · rcases h4 : env.get_token_count comp with e4 | cc
        · exact ⟨[Event.fsWrite output_file, Event.fsRead output_file,
            Event.fsWrite processed_file, Event.fsRead processed_file],
            by simp [finishUp, h1, h2, h3, h4, readFile, updateFs], by simp⟩
        · rcases h5 : env.get_token_count final with e5 | uc
          · exact ⟨[Event.fsWrite output_file, Event.fsRead output_file,
              Event.fsWrite processed_file, Event.fsRead processed_file,
              Event.fsRead output_file],
              by
                have hne : output_file ≠ processed_file := by decide
                simp [finishUp, h1, h2, h3, h4, h5, readFile, updateFs, hne], by simp⟩
          · rcases h6 : env.pyperclip_copy final with e6 | u6
            · exact ⟨[Event.fsWrite output_file, Event.fsRead output_file,
                Event.fsWrite processed_file, Event.fsRead processed_file,
                Event.fsRead output_file],
                by
                  have hne : output_file ≠ processed_file := by decide
                  simp [finishUp, h1, h2, h3, h4, h5, h6, readFile, updateFs, hne],
                by simp⟩
            · exact ⟨[Event.fsWrite output_file, Event.fsRead output_file,
                Event.fsWrite processed_file, Event.fsRead processed_file,
                Event.fsRead output_file],
                by
                  have hne : output_file ≠ processed_file := by decide
                  simp [finishUp, h1, h2, h3, h4, h5, h6, readFile, updateFs, hne],
                by simp⟩

/-- Facts about an ASCII-digit character: it survives urlsplit's byte
cleaning, is not an ASCII letter, and is not a slash. -/
theorem digit_head_facts (c : Char) (hc : isAsciiDigitChar c = true) :
    (c != '\t' && c != '\r' && c != '\n') = true ∧
    isAsciiAlphaChar c = false ∧ c ≠ '/' := by
  refine ⟨?_, ?_, ?_⟩
  · have t1 : c ≠ '\t' := fun h => absurd (h ▸ hc) (by decide)
    have t2 : c ≠ '\r' := fun h => absurd (h ▸ hc) (by decide)
    have t3 : c ≠ '\n' := fun h => absurd (h ▸ hc) (by decide)
    simp [t1, t2, t3]
  · by_cases h : isAsciiAlphaChar c = true
    · exfalso
      have hn : 48 ≤ c.toNat ∧ c.toNat ≤ 57 := by
        simpa [isAsciiDigitChar] using hc
      have ha : (65 ≤ c.toNat ∧ c.toNat ≤ 90) ∨ (97 ≤ c.toNat ∧ c.toNat ≤ 122) := by
        simpa [isAsciiAlphaChar] using h
      omega
    · simpa using h
  · exact fun h => absurd (h ▸ hc) (by decide)

/-- A URL whose first character is an ASCII digit never makes urlsplit raise
and has no scheme: the first character can neither open a scheme (not a
letter) nor begin the "//" netloc marker, so no netloc — hence no bracket
validation — is ever reached. -/
theorem urlparse_ok_digit_head (s : String) (c : Char) (cs : List Char)
    (hd : s.data = c :: cs) (hc : isAsciiDigitChar c = true) :
    urlparseError s = none ∧ urlScheme s = "" := by
  obtain ⟨hkeep, halpha, hslash⟩ := digit_head_facts c hc
  have hclean : cleanUrlChars s.data = c :: cleanUrlChars cs := by
    rw [hd]
    simp [cleanUrlChars, hkeep]
  have hsplit : splitScheme (cleanUrlChars s.data) = (none, c :: cleanUrlChars cs) := by
    rw [hclean]
    simp [splitScheme, halpha]
  have hM : urlsplitM s = .ok ⟨"", none⟩ := by
    simp only [urlsplitM, hsplit]
    simp [hslash, List.take_succ_cons]
  exact ⟨by simp [urlparseError, hM], by simp [urlScheme, hM]⟩

/-- C5 is false as stated: "https://github.com[" is network-bound (it
contains the repository-host marker) and fails the safety check, yet the
response is the caught urlparse-error page, not the security-rejection
message, because line 100's `urlparse(input_path)` raises before the safety
check is ever reached.  No backend runs and no file changes either way. -/
theorem claim_C5_counterexample :
    strContains "https://github.com[" "github.com" = true ∧
    is_safe_url "https://github.com[" = false ∧
    (index_post stubEnv emptyFs "https://github.com[").response ≠ securityResp ∧
    (index_post stubEnv emptyFs "https://github.com[").response =
      errorResp "Invalid IPv6 URL" := by
  refine ⟨by decide, by decide, by decide, by decide⟩

/-- C5 (amended): for every network-bound input (repository-host marker, or
http/https scheme) whose URL parsing does not raise and which fails the
safety check, the handler responds with the security-rejection message,
leaves every file unchanged, and its only observable effect is the safety
check itself — in particular no backend is invoked. -/
theorem claim_C5_amended (env : Env) (fs : Fs) (raw : String)
    (hok : urlparseError (pyStrip raw) = none)
    (hnet : strContains (pyStrip raw) "github.com" = true ∨
      urlScheme (pyStrip raw) = "http" ∨ urlScheme (pyStrip raw) = "https")
    (hbad : is_safe_url (pyStrip raw) = false) :
    (index_post env fs raw).response = securityResp ∧
    (index_post env fs raw).fs = fs ∧
    (index_post env fs raw).trace = [Event.safetyCheck (pyStrip raw)] ∧
    (∀ nm a, Event.backendCall nm a ∉ (index_post env fs raw).trace) := by
  have key : index_post env fs raw =
      ⟨securityResp, fs, [Event.safetyCheck (pyStrip raw)]⟩ := by
    by_cases hg : strContains (pyStrip raw) "github.com" = true
    · by_cases hp : strContains (pyStrip raw) "/pull/" = true
      · simp [index_post, hok, classify, hg, hp, hbad]
      · by_cases hi : strContains (pyStrip raw) "/issues/" = true
        · simp [index_post, hok, classify, hg, hp, hi, hbad]
        · simp [index_post, hok, classify, hg, hp, hi, hbad]
    · have hs : (urlScheme (pyStrip raw) == "http" ||
          urlScheme (pyStrip raw) == "https") = true := by
        rcases hnet with h | h | h
        · exact absurd h hg
        · simp [h]
        · simp [h]
      by_cases hy : (strContains (pyStrip raw) "youtube.com" ||
          strContains (pyStrip raw) "youtu.be") = true
      · simp [index_post, hok, classify, hg, hs, hy, hbad]
      · by_cases ha : strContains (pyStrip raw) "arxiv.org" = true
        · simp [index_post, hok, classify, hg, hs, hy, ha, hbad]
        · simp [index_post, hok, classify, hg, hs, hy, ha, hbad]
  rw [key]
  refine ⟨rfl, rfl, rfl, ?_⟩
  intro nm a hmem
  simp at hmem

/-- Witness for the amended C5 at the end-to-end scenario input: the cloud
metadata URL is rejected with the security message and the (empty) output
directory is untouched. -/
theorem claim_C5_witness :
    (index_post stubEnv emptyFs "http://169.254.169.254/latest/meta-data/").response =
      securityResp ∧
    (index_post stubEnv emptyFs "http://169.254.169.254/latest/meta-data/").fs =
      emptyFs :=
  ⟨(claim_C5_amended stubEnv emptyFs "http://169.254.169.254/latest/meta-data/"
      (by decide) (Or.inr (Or.inl (by decide))) (by decide)).1,
   (claim_C5_amended stubEnv emptyFs "http://169.254.169.254/latest/meta-data/"
      (by decide) (Or.inr (Or.inl (by decide))) (by decide)).2.1⟩

/-- C7: an input with no repository-host marker that does not parse as an
HTTP/HTTPS URL and is composed entirely of digits, or begins with "10." and
contains "/", is classified BibliographicRef and dispatched directly to
process_doi_or_pmid: the first observable effect is that backend call, and no
safety check appears anywhere in the trace. -/
theorem claim_C7 (env : Env) (fs : Fs) (raw : String)
    (h1 : strContains (pyStrip raw) "github.com" = false)
    (h2 : urlScheme (pyStrip raw) ≠ "http")
    (h3 : urlScheme (pyStrip raw) ≠ "https")
    (h4 : pyIsdigit (pyStrip raw) = true ∨
      (strStartsWith (pyStrip raw) "10." = true ∧
        strContains (pyStrip raw) "/" = true)) :
    classify (pyStrip raw) = .bibliographicRef ∧
    (∃ rest, (index_post env fs raw).trace =
      Event.backendCall "process_doi_or_pmid" (pyStrip raw) :: rest) ∧
    (∀ u, Event.safetyCheck u ∉ (index_post env fs raw).trace) := by
  have hdig : ∃ c cs, (pyStrip raw).data = c :: cs ∧ isAsciiDigitChar c = true := by
    rcases h4 with h | ⟨h, _⟩
    · rcases hl : (pyStrip raw).data with _ | ⟨c, cs⟩
      · rw [pyIsdigit, hl] at h
        exact absurd h (by decide)
      · rw [pyIsdigit, hl] at h
        simp only [List.all_cons, Bool.and_eq_true, List.isEmpty_cons,
          Bool.not_false, Bool.true_and] at h
        exact ⟨c, cs, rfl, h.1⟩
    · rcases hl : (pyStrip raw).data with _ | ⟨c, cs⟩
      · rw [strStartsWith, hl] at h
        exact absurd h (by decide)
      · rw [strStartsWith, hl] at h
        have h10 : ("10." : String).data = ['1', '0', '.'] := rfl
        rw [h10] at h
        simp only [List.length_cons, List.length_nil, List.take_succ_cons,
          beq_iff_eq, List.cons.injEq] at h
        exact ⟨c, cs, rfl, by rw [h.1]; decide⟩
  obtain ⟨c, cs, hl, hc⟩ := hdig
  obtain ⟨hok, _⟩ := urlparse_ok_digit_head (pyStrip raw) c cs hl hc
  have hb : ((strStartsWith (pyStrip raw) "10." && strContains (pyStrip raw) "/") ||
      pyIsdigit (pyStrip raw)) = true := by
    rcases h4 with h | ⟨ha, hb2⟩
    · simp [h]
    · simp [ha, hb2]
  have hs : (urlScheme (pyStrip raw) == "http" ||
      urlScheme (pyStrip raw) == "https") = false := by
    simp [h2, h3]
  have hcl : classify (pyStrip raw) = .bibliographicRef := by
    simp [classify, h1, hs, hb]
  rcases henv : env.process_doi_or_pmid (pyStrip raw) with e | final
  · have key : index_post env fs raw =
        ⟨errorResp e, fs, [Event.backendCall "process_doi_or_pmid" (pyStrip raw)]⟩ := by
      simp [index_post, hok, hcl, henv]
    rw [key]
    exact ⟨hcl, ⟨[], rfl⟩, fun u hmem => by simp at hmem⟩
  · have key : index_post env fs raw =
        finishUp env fs [Event.backendCall "process_doi_or_pmid" (pyStrip raw)] final := by
      simp [index_post, hok, hcl, henv]
    obtain ⟨ext, hext, hnos⟩ := finishUp_trace_shape env fs
      [Event.backendCall "process_doi_or_pmid" (pyStrip raw)] final
    rw [key, hext]
    refine ⟨hcl, ⟨ext, by simp⟩, ?_⟩
    intro u hmem
    rcases List.mem_append.mp hmem with hmem | hmem
    · simp at hmem
    · exact (hnos _ hmem u) rfl

/-- Witness for C7: "10.1234/example" is classified BibliographicRef and its
handler trace contains no safety check. -/
theorem claim_C7_witness :
    classify (pyStrip "10.1234/example") = .bibliographicRef ∧
    (∀ u, Event.safetyCheck u ∉
      (index_post stubEnv emptyFs "10.1234/example").trace) :=
  ⟨(claim_C7 stubEnv emptyFs "10.1234/example" (by decide) (by decide) (by decide)
      (Or.inr ⟨by decide, by decide⟩)).1,
   (claim_C7 stubEnv emptyFs "10.1234/example" (by decide) (by decide) (by decide)
      (Or.inr ⟨by decide, by decide⟩)).2.2⟩

/-- C8: an input matching none of the classification rules is classified
Rejected, and the handler — a total function, so it never raises — performs
no backend call and no filesystem access at all (empty effect trace, file
store returned untouched) and renders a user-visible rejection page: the
local-path rejection message, or, for inputs whose URL parsing itself raises
(only possible with a malformed bracketed netloc), the caught parse-error
message. -/
theorem claim_C8 (env : Env) (fs : Fs) (raw : String)
    (h1 : strContains (pyStrip raw) "github.com" = false)
    (h2 : urlScheme (pyStrip raw) ≠ "http")
    (h3 : urlScheme (pyStrip raw) ≠ "https")
    (h4 : ((strStartsWith (pyStrip raw) "10." && strContains (pyStrip raw) "/") ||
      pyIsdigit (pyStrip raw)) = false) :
    classify (pyStrip raw) = .rejected ∧
    (index_post env fs raw).fs = fs ∧
    (index_post env fs raw).trace = [] ∧
    (urlparseError (pyStrip raw) = none →
      (index_post env fs raw).response = localPathResp) ∧
    (∀ m, urlparseError (pyStrip raw) = some m →
      (index_post env fs raw).response = errorResp m) := by
  have hs : (urlScheme (pyStrip raw) == "http" ||
      urlScheme (pyStrip raw) == "https") = false := by
    simp [h2, h3]
  have hcl : classify (pyStrip raw) = .rejected := by
    simp [classify, h1, hs, h4]
  rcases hue : urlparseError (pyStrip raw) with _ | m
  · have key : index_post env fs raw = ⟨localPathResp, fs, []⟩ := by
      simp [index_post, hue, hcl]
    rw [key]
    exact ⟨hcl, rfl, rfl, fun _ => rfl, fun m hm => absurd hm (by simp)⟩
  · have key : index_post env fs raw = ⟨errorResp m, fs, []⟩ := by
      simp [index_post, hue]
    rw [key]
    refine ⟨hcl, rfl, rfl, fun hnone => absurd hnone (by simp), fun m2 hm2 => ?_⟩
    cases hm2
    rfl

/-- Witness for C8 at the local-path-shaped input "/etc/passwd": classified
Rejected, answered with the local-path message, empty trace. -/
theorem claim_C8_witness :
    classify (pyStrip "/etc/passwd") = .rejected ∧
    (index_post stubEnv emptyFs "/etc/passwd").response = localPathResp ∧
    (index_post stubEnv emptyFs "/etc/passwd").trace = [] :=
  ⟨(claim_C8 stubEnv emptyFs "/etc/passwd" (by decide) (by decide) (by decide)
      (by decide)).1,
   (claim_C8 stubEnv emptyFs "/etc/passwd" (by decide) (by decide) (by decide)
      (by decide)).2.2.2.1 (by decide),
   (claim_C8 stubEnv emptyFs "/etc/passwd" (by decide) (by decide) (by decide)
      (by decide)).2.2.1⟩

/-- C9: every collaborator error raised during request handling is caught at
the handler boundary (the handler is a total function — nothing escapes) and
converted to a page whose message embeds the collaborator's own message
verbatim ("Error: " ++ message).  Shown here stage by stage along the
repository path: the retrieval backend, the uncompressed-artifact write, the
normalization routine, the compressed-artifact write, and token counting on
either artifact; the other retrieval backends are wired through the identical
error path. -/
theorem claim_C9 (env : Env) (fs : Fs) (raw : String)
    (hok : urlparseError (pyStrip raw) = none)
    (hg : strContains (pyStrip raw) "github.com" = true)
    (hp : strContains (pyStrip raw) "/pull/" = false)
    (hi : strContains (pyStrip raw) "/issues/" = false)
    (hsafe : is_safe_url (pyStrip raw) = true) :
    (∀ e, env.process_github_repo (pyStrip raw) = .error e →
      (index_post env fs raw).response = errorResp e) ∧
    (∀ t e, env.process_github_repo (pyStrip raw) = .ok t →
      env.write_ok output_file t = .error e →
      (index_post env fs raw).response = errorResp e) ∧
    (∀ t e, env.process_github_repo (pyStrip raw) = .ok t →
      env.write_ok output_file t = .ok () →
      env.preprocess t = .error e →
      (index_post env fs raw).response = errorResp e) ∧
    (∀ t ct e, env.process_github_repo (pyStrip raw) = .ok t →
      env.write_ok output_file t = .ok () →
      env.preprocess t = .ok ct →
      env.write_ok processed_file ct = .error e →
      (index_post env fs raw).response = errorResp e) ∧
    (∀ t ct e, env.process_github_repo (pyStrip raw) = .ok t →
      env.write_ok output_file t = .ok () →
      env.preprocess t = .ok ct →
      env.write_ok processed_file ct = .ok () →
      env.get_token_count ct = .error e →
      (index_post env fs raw).response = errorResp e) ∧
    (∀ t ct n e, env.process_github_repo (pyStrip raw) = .ok t →
      env.write_ok output_file t = .ok () →
      env.preprocess t = .ok ct →
      env.write_ok processed_file ct = .ok () →
      env.get_token_count ct = .ok n →
      env.get_token_count t = .error e →
      (index_post env fs raw).response = errorResp e) := by
  have hcl : classify (pyStrip raw) = .repositoryRef := by
    simp [classify, hg, hp, hi]
  have hne : output_file ≠ processed_file := by decide
  refine ⟨?_, ?_, ?_, ?_, ?_, ?_⟩
  · intro e he
    simp [index_post, hok, hcl, hsafe, he]
  · intro t e ht he
    simp [index_post, hok, hcl, hsafe, ht, finishUp, he]
  · intro t e ht hw he
    simp [index_post, hok, hcl, hsafe, ht, finishUp, hw, readFile, updateFs, he]
  · intro t ct e ht hw hpre he
    simp [index_post, hok, hcl, hsafe, ht, finishUp, hw, readFile, updateFs,
      hpre, he]
  · intro t ct e ht hw hpre hw2 he
    simp [index_post, hok, hcl, hsafe, ht, finishUp, hw, readFile, updateFs,
      hpre, hw2, he]
  · intro t ct n e ht hw hpre hw2 hn he
    simp [index_post, hok, hcl, hsafe, ht, finishUp, hw, readFile, updateFs,
      hpre, hw2, hn, he, hne]

/-- An environment whose repository backend raises "boom". -/
def failRepoEnv : Env :=
  { stubEnv with process_github_repo := fun _ => .error "boom" }

/-- Witness for C9: a failing repository backend surfaces its message
verbatim in the rendered error page. -/
theorem claim_C9_witness :
    (index_post failRepoEnv emptyFs "https://github.com/example/repo").response =
      errorResp "boom" :=
  (claim_C9 failRepoEnv emptyFs "https://github.com/example/repo"
    (by decide) (by decide) (by decide) (by decide) (by decide)).1 "boom" rfl

end OneFileLLM
